import Mathlib

/-!
Shallow embedding of the EVM arbitrage bot repository and proofs about it.

Covered source:
* the `ArbitrageOpportunity` entity (lifecycle status, `markAs*` mutators,
  `getNetProfit`),
* the `DEX` and `Token` entities (`isAvailable`, `setActive`),
* the `ArbitrageBot` Solidity contract (`executeArbitrage`,
  `simulateArbitrage`) with explicit chain-state passing and EVM revert
  semantics.

Decimal-string database columns are modelled as exact rationals, nullable
columns as `Option`, timestamps as `Option Nat`.  EVM words (addresses and
uint256 amounts) are modelled as `Nat`; every subtraction the contract
performs is guarded by an explicit comparison in the source, so truncated
`Nat` subtraction agrees with the checked `uint256` arithmetic of Solidity
0.8 on every reachable path, and the one unguarded subtraction
(`profit - fee` in the event emission) is given an explicit underflow
branch mirroring checked arithmetic.
-/

/-- Lifecycle states of an arbitrage opportunity: the `OpportunityStatus`
enum of the `ArbitrageOpportunity` entity. -/
inductive OpportunityStatus where
  | detected
  | analyzing
  | executing
  | completed
  | failed
  | expired
  deriving DecidableEq, Repr

/-- The fields of the `ArbitrageOpportunity` entity that its embedded
methods read or write.  Persistence-only columns (id, network, token and
venue addresses, quoted prices, estimates, metadata, indexes, relations,
created/updated timestamps) are omitted: no embedded method depends on
them. -/
structure ArbitrageOpportunity where
  status : OpportunityStatus
  profitPercentage : ℚ
  actualProfit : Option ℚ
  actualGasFee : Option ℚ
  errorMessage : Option String
  executedAt : Option Nat
  completedAt : Option Nat
  deriving DecidableEq, Repr

/-- `getNetProfit()`: returns 0 when `actualProfit` or `actualGasFee` is
unset, otherwise `Math.max(0, profit - gasFee)`. -/
def ArbitrageOpportunity.getNetProfit (o : ArbitrageOpportunity) : ℚ :=
  match o.actualProfit, o.actualGasFee with
  | some p, some g => max 0 (p - g)
  | _, _ => 0

/-- `markAsExecuting()`: sets status to EXECUTING and stamps `executedAt`
with the current time (passed explicitly instead of `new Date()`). -/
def ArbitrageOpportunity.markAsExecuting (o : ArbitrageOpportunity)
    (now : Nat) : ArbitrageOpportunity :=
  { o with status := .executing, executedAt := some now }

/-- `markAsCompleted(actualProfit, actualGasFee)`: sets status to COMPLETED,
records the realized profit and gas fee, stamps `completedAt`. -/
def ArbitrageOpportunity.markAsCompleted (o : ArbitrageOpportunity)
    (actualProfit actualGasFee : ℚ) (now : Nat) : ArbitrageOpportunity :=
  { o with status := .completed, actualProfit := some actualProfit,
           actualGasFee := some actualGasFee, completedAt := some now }

/-- `markAsFailed(errorMessage)`: sets status to FAILED and records the
error message. -/
def ArbitrageOpportunity.markAsFailed (o : ArbitrageOpportunity)
    (msg : String) : ArbitrageOpportunity :=
  { o with status := .failed, errorMessage := some msg }

/-- `markAsExpired()`: sets status to EXPIRED. -/
def ArbitrageOpportunity.markAsExpired (o : ArbitrageOpportunity) :
    ArbitrageOpportunity :=
  { o with status := .expired }

/-- The legal lifecycle edges listed in the specification (section 4.2):
Detected→Analyzing, Analyzing→Executing, Analyzing→Expired,
Detected→Expired, Executing→Completed, Executing→Failed.  This definition
follows the spec's words; it is used to state the lifecycle claim against
the entity code. -/
def legalEdge : OpportunityStatus → OpportunityStatus → Bool
  | .detected, .analyzing => true
  | .analyzing, .executing => true
  | .analyzing, .expired => true
  | .detected, .expired => true
  | .executing, .completed => true
  | .executing, .failed => true
  | _, _ => false

/-- A concrete opportunity that has already reached the terminal COMPLETED
state. -/
def oppCompleted : ArbitrageOpportunity :=
  { status := .completed, profitPercentage := 2, actualProfit := some 5,
    actualGasFee := some 1, errorMessage := none, executedAt := some 100,
    completedAt := some 200 }

/-- A concrete opportunity whose realized gas fee exceeds its realized
profit. -/
def oppGasHeavy : ArbitrageOpportunity :=
  { status := .completed, profitPercentage := 1, actualProfit := some 3,
    actualGasFee := some 5, errorMessage := none, executedAt := some 10,
    completedAt := some 20 }

/-- A concrete opportunity with its realized gas fee still unset. -/
def oppNoGas : ArbitrageOpportunity :=
  { status := .executing, profitPercentage := 1, actualProfit := some 3,
    actualGasFee := none, errorMessage := none, executedAt := some 10,
    completedAt := none }

/-- Status enum of the `DEX` entity. -/
inductive DEXStatus where
  | active
  | inactive
  | maintenance
  deriving DecidableEq, Repr

/-- The fields of the `DEX` entity that `isAvailable` and `setActive` read
or write (the remaining columns — addresses, fees, priority, config,
timestamps, relations — are untouched by these methods and omitted). -/
structure DEX where
  status : DEXStatus
  isActive : Bool
  isHealthy : Bool
  deriving DecidableEq, Repr

/-- `DEX.isAvailable()`: `isActive && status === ACTIVE && isHealthy`. -/
def DEX.isAvailable (d : DEX) : Bool :=
  d.isActive && d.status == DEXStatus.active && d.isHealthy

/-- `DEX.setActive(active)`: assigns `isActive`; additionally sets
`status := INACTIVE` when deactivating. -/
def DEX.setActive (d : DEX) (active : Bool) : DEX :=
  let d1 := { d with isActive := active }
  if active = false then { d1 with status := DEXStatus.inactive } else d1

/-- Status enum of the `Token` entity. -/
inductive TokenStatus where
  | active
  | inactive
  | deprecated
  | suspicious
  deriving DecidableEq, Repr

/-- The fields of the `Token` entity that `isAvailable` reads. -/
structure Token where
  status : TokenStatus
  isActive : Bool
  deriving DecidableEq, Repr

/-- `Token.isAvailable()`: `isActive && status === ACTIVE`. -/
def Token.isAvailable (t : Token) : Bool :=
  t.isActive && t.status == TokenStatus.active

/-! ### The `ArbitrageBot` contract

Addresses and uint256 amounts are `Nat`.  `Storage` holds the contract's
storage variables, `ChainState` adds the ERC20 balance map
(`bal token holder`), and `Env` the per-call EVM context.  DEX routers are
external contracts: their quoted/settled exchange rate is an oracle
function in `Env`, and `swapExactTokensForTokens` is modelled from the
spec (section 4.4, legs 1–2): it pulls `amountIn` of `tokenIn` from the
caller, credits the output of `tokenOut`, and reverts when the output is
below `amountOutMin` ("the minimum acceptable output … guards against the
second leg failing to even recover principal"). -/

namespace ArbitrageBot

/-- The contract's storage variables (configuration, fee recipient, the
authorized-bot and token-blacklist mappings, and the Pausable flag). -/
structure Storage where
  maxSlippage : Nat
  maxGasPrice : Nat
  minProfitThreshold : Nat
  feePercentage : Nat
  feeRecipient : Nat
  authorizedBots : Nat → Bool
  tokenBlacklist : Nat → Bool
  paused : Bool

/-- On-chain state visible to the contract: its storage plus the ERC20
balance map, `bal token holder`. -/
structure ChainState where
  storage : Storage
  bal : Nat → Nat → Nat

/-- Per-call EVM context: `msg.sender`, `tx.gasprice`, `address(this)`,
the routers' exchange-rate oracle `quote router tokenIn tokenOut amountIn`,
and the gas the call consumes (`gasStart - gasleft()`). -/
structure Env where
  sender : Nat
  gasprice : Nat
  self : Nat
  quote : Nat → Nat → Nat → Nat → Nat
  gasUsed : Nat

/-- The arguments of `executeArbitrage`. -/
structure Args where
  tokenA : Nat
  tokenB : Nat
  dexA : Nat
  dexB : Nat
  amountIn : Nat
  minProfitExpected : Nat
  deriving DecidableEq, Repr

/-- The `ArbitrageExecuted` event. -/
structure ArbitrageExecuted where
  tokenA : Nat
  tokenB : Nat
  dexA : Nat
  dexB : Nat
  amountIn : Nat
  profit : Nat
  gasUsed : Nat
  deriving DecidableEq, Repr

/-- Point update of a balance map. -/
def setBal (b : Nat → Nat → Nat) (token holder v : Nat) : Nat → Nat → Nat :=
  fun t h => if t = token ∧ h = holder then v else b t h

/-- Balance effect of an ERC20 transfer: debit `src`, credit `dst`. -/
def transferBal (b : Nat → Nat → Nat) (token src dst amt : Nat) :
    Nat → Nat → Nat :=
  let b1 := setBal b token src (b token src - amt)
  setBal b1 token dst (b1 token dst + amt)

/-- `safeTransfer`: reverts (`none`) unless `src` holds at least `amt`. -/
def transfer (b : Nat → Nat → Nat) (token src dst amt : Nat) :
    Option (Nat → Nat → Nat) :=
  if amt ≤ b token src then some (transferBal b token src dst amt) else none

/-- Balance effect of a successful `_swapOnDEX`: the router pulls
`amountIn` of `tokenIn` from the contract and the contract receives `out`
of `tokenOut`. -/
def swapBal (env : Env) (b : Nat → Nat → Nat)
    (dexRouter tokenIn tokenOut amountIn out : Nat) : Nat → Nat → Nat :=
  let b2 := transferBal b tokenIn env.self dexRouter amountIn
  setBal b2 tokenOut env.self (b2 tokenOut env.self + out)

/-- `_swapOnDEX(dexRouter, tokenIn, tokenOut, amountIn, amountOutMin)`:
approves the router and calls `swapExactTokensForTokens`.  Modelled from
the spec for the external router: the router pulls `amountIn` of `tokenIn`
from the caller (reverting if the balance is short), settles
`env.quote dexRouter tokenIn tokenOut amountIn` of `tokenOut` to the
caller, and reverts when that output is below `amountOutMin`.  Returns the
settled output amount (`amounts[amounts.length - 1]`). -/
def swapOnDEX (env : Env) (b : Nat → Nat → Nat)
    (dexRouter tokenIn tokenOut amountIn amountOutMin : Nat) :
    Option ((Nat → Nat → Nat) × Nat) :=
  match transfer b tokenIn env.self dexRouter amountIn with
  | none => none
  | some b1 =>
    if amountOutMin ≤ env.quote dexRouter tokenIn tokenOut amountIn then
      some (setBal b1 tokenOut env.self
              (b1 tokenOut env.self
                + env.quote dexRouter tokenIn tokenOut amountIn),
            env.quote dexRouter tokenIn tokenOut amountIn)
    else none

/-- `executeArbitrage(tokenA, tokenB, dexA, dexB, amountIn,
minProfitExpected)`: the guard modifiers in source order (`whenNotPaused`,
`onlyAuthorizedBot`, `validToken(tokenA)`, `validToken(tokenB)`; the
`nonReentrant` modifier is vacuous here since the model performs no
reentrant calls), the body's `require`s, the two swap legs, the fee skim
and the `ArbitrageExecuted` emission.  A `require`/revert anywhere
produces `.error`; the `.ok` branch carries the post-call chain state and
the emitted event.  `profit - fee` in the emission is checked
arithmetic, hence the explicit underflow branch. -/
def executeArbitrage (env : Env) (s : ChainState) (a : Args) :
    Except String (ChainState × ArbitrageExecuted) :=
  if s.storage.paused = true then .error "Pausable: paused"
  else if s.storage.authorizedBots env.sender = false then
    .error "ArbitrageBot: Not authorized"
  else if a.tokenA = 0 then .error "ArbitrageBot: Invalid token address"
  else if s.storage.tokenBlacklist a.tokenA = true then
    .error "ArbitrageBot: Token blacklisted"
  else if a.tokenB = 0 then .error "ArbitrageBot: Invalid token address"
  else if s.storage.tokenBlacklist a.tokenB = true then
    .error "ArbitrageBot: Token blacklisted"
  else if s.storage.maxGasPrice < env.gasprice then
    .error "ArbitrageBot: Gas price too high"
  else if a.minProfitExpected < s.storage.minProfitThreshold then
    .error "ArbitrageBot: Profit too low"
  else if s.bal a.tokenA env.self < a.amountIn then
    .error "ArbitrageBot: Insufficient balance"
  else
    match swapOnDEX env s.bal a.dexA a.tokenA a.tokenB a.amountIn 0 with
    | none => .error "ArbitrageBot: swap reverted"
    | some (b1, tokenBReceived) =>
      if tokenBReceived = 0 then .error "ArbitrageBot: First swap failed"
      else
        match swapOnDEX env b1 a.dexB a.tokenB a.tokenA tokenBReceived
            a.amountIn with
        | none => .error "ArbitrageBot: swap reverted"
        | some (b2, tokenAReceived) =>
          if tokenAReceived ≤ a.amountIn then
            .error "ArbitrageBot: No arbitrage profit"
          else if tokenAReceived - a.amountIn < a.minProfitExpected then
            .error "ArbitrageBot: Profit below expectation"
          else
            match (if 0 < (tokenAReceived - a.amountIn)
                        * s.storage.feePercentage / 10000 then
                     transfer b2 a.tokenA env.self s.storage.feeRecipient
                       ((tokenAReceived - a.amountIn)
                         * s.storage.feePercentage / 10000)
                   else some b2) with
            | none => .error "ArbitrageBot: transfer reverted"
            | some b3 =>
              if tokenAReceived - a.amountIn
                  < (tokenAReceived - a.amountIn)
                    * s.storage.feePercentage / 10000 then
                .error "ArbitrageBot: arithmetic underflow"
              else
                .ok ({ s with bal := b3 },
                     { tokenA := a.tokenA, tokenB := a.tokenB,
                       dexA := a.dexA, dexB := a.dexB,
                       amountIn := a.amountIn,
                       profit := (tokenAReceived - a.amountIn)
                         - (tokenAReceived - a.amountIn)
                           * s.storage.feePercentage / 10000,
                       gasUsed := env.gasUsed })

/-- EVM transaction semantics: a reverted call leaves the pre-call chain
state in force. -/
def run (env : Env) (s : ChainState) (a : Args) : ChainState :=
  match executeArbitrage env s a with
  | .ok r => r.1
  | .error _ => s

/-- The balance map produced by a successful `executeArbitrage`: the two
swap legs followed by the fee skim (performed only when the fee is
nonzero).  Stated here once and proved equal to the `.ok` branch's
balances in `executeArbitrage_ok`. -/
def execBal (env : Env) (s : ChainState) (a : Args) : Nat → Nat → Nat :=
  let out1 := env.quote a.dexA a.tokenA a.tokenB a.amountIn
  let out2 := env.quote a.dexB a.tokenB a.tokenA out1
  let fee := (out2 - a.amountIn) * s.storage.feePercentage / 10000
  let b1 := swapBal env s.bal a.dexA a.tokenA a.tokenB a.amountIn out1
  let b2 := swapBal env b1 a.dexB a.tokenB a.tokenA out1 out2
  if 0 < fee then transferBal b2 a.tokenA env.self s.storage.feeRecipient fee
  else b2

/-- `simulateArbitrage(tokenA, tokenB, dexA, dexB, amountIn)`: a `view`
function — it takes the chain state only as an input and returns the
`(profit, profitable)` pair, quoting both legs through `getAmountsOut`. -/
def simulateArbitrage (env : Env) (s : ChainState)
    (tokenA tokenB dexA dexB amountIn : Nat) : Nat × Bool :=
  if env.quote dexA tokenA tokenB amountIn = 0 then (0, false)
  else
    if env.quote dexB tokenB tokenA
        (env.quote dexA tokenA tokenB amountIn) ≤ amountIn then (0, false)
    else
      (env.quote dexB tokenB tokenA
          (env.quote dexA tokenA tokenB amountIn) - amountIn,
       decide (s.storage.minProfitThreshold
          ≤ env.quote dexB tokenB tokenA
              (env.quote dexA tokenA tokenB amountIn) - amountIn))

/-! Concrete data used by the witnesses: contract address 1, authorized
bot 2, fee recipient 3, tokens 10/11, routers 20/21.  Router 20 doubles
any input, router 21 settles it one for one. -/

/-- Witness storage: gas ceiling 100, profit floor 5, fee 1% (100 basis
points), fee recipient 3, bot 2 authorized, nothing blacklisted. -/
def wStorage : Storage :=
  { maxSlippage := 500, maxGasPrice := 100, minProfitThreshold := 5,
    feePercentage := 100, feeRecipient := 3,
    authorizedBots := fun bot => bot == 2,
    tokenBlacklist := fun _ => false, paused := false }

/-- Witness chain state: the contract (address 1) holds 1000 of token 10. -/
def wState : ChainState :=
  { storage := wStorage,
    bal := fun t h => if t = 10 ∧ h = 1 then 1000 else 0 }

/-- Witness call context: authorized sender 2, gas price 50 below the
ceiling, router 20 doubling and router 21 settling one for one. -/
def wEnv : Env :=
  { sender := 2, gasprice := 50, self := 1,
    quote := fun d _ _ amt => if d = 20 then 2 * amt else amt,
    gasUsed := 777 }

/-- Witness arguments: 1000 of token 10 round-tripped through routers 20
and 21, expecting at least 10 profit. -/
def wArgs : Args :=
  { tokenA := 10, tokenB := 11, dexA := 20, dexB := 21, amountIn := 1000,
    minProfitExpected := 10 }

/-- The witness call's result. -/
def wRes : Except String (ChainState × ArbitrageExecuted) :=
  executeArbitrage wEnv wState wArgs

/-- The witness call's post-state (its `.ok` component). -/
def wFinal : ChainState :=
  match wRes with
  | .ok r => r.1
  | .error _ => wState

/-- The witness call's emitted event (its `.ok` component). -/
def wEvent : ArbitrageExecuted :=
  match wRes with
  | .ok r => r.2
  | .error _ =>
    { tokenA := 0, tokenB := 0, dexA := 0, dexB := 0, amountIn := 0,
      profit := 0, gasUsed := 0 }

/-- The witness state with the contract paused. -/
def wStatePaused : ChainState :=
  { wState with storage := { wStorage with paused := true } }

/-- The witness context with an unauthorized sender. -/
def wEnvUnauthorized : Env := { wEnv with sender := 9 }

/-- The witness arguments with an expectation above the achievable
profit. -/
def wArgsHighMin : Args := { wArgs with minProfitExpected := 2000 }

/-- The witness context where router 21 settles only a quarter of its
input, so the second leg cannot recover the principal. -/
def wEnvLowQuote : Env :=
  { wEnv with quote := fun d _ _ amt => if d = 20 then 2 * amt else amt / 4 }

end ArbitrageBot

/-! ### Theorems -/

/-- C1, counterexample: on a COMPLETED opportunity, `markAsExpired` neither
follows a legal edge nor leaves the status unchanged — the claimed
rejection of illegal edges does not happen: the entity method overwrites
the status unconditionally. -/
theorem c1_markAsExpired_on_completed_not_rejected :
    ¬ (legalEdge oppCompleted.status oppCompleted.markAsExpired.status = true
        ∨ oppCompleted.markAsExpired.status = oppCompleted.status) := by
  decide

/-- C1, amended: each `markAs*` method of `ArbitrageOpportunity` sets the
status unconditionally to its target state (EXECUTING / COMPLETED /
FAILED / EXPIRED), never consulting the current status, and touches no
field beyond the ones it records; illegal edges are not rejected. -/
theorem c1_mark_methods_set_status_unconditionally
    (o : ArbitrageOpportunity) (now : Nat) (p g : ℚ) (msg : String) :
    o.markAsExecuting now
        = { o with status := .executing, executedAt := some now }
      ∧ o.markAsCompleted p g now
        = { o with status := .completed, actualProfit := some p,
                   actualGasFee := some g, completedAt := some now }
      ∧ o.markAsFailed msg
        = { o with status := .failed, errorMessage := some msg }
      ∧ o.markAsExpired = { o with status := .expired } :=
  ⟨rfl, rfl, rfl, rfl⟩

/-- C8: `isAvailable` for venues holds exactly when the active flag is set,
the health flag is set, and the status enum is ACTIVE; for tokens exactly
when the active flag is set and the status enum is ACTIVE.  The descriptors
carry no separate blacklist column: an administratively blacklisted
descriptor is one whose status enum is not ACTIVE (INACTIVE / MAINTENANCE,
and for tokens also DEPRECATED / SUSPICIOUS), and any such descriptor —
however active and healthy its flags — reports unavailable. -/
theorem c8_isAvailable_characterization (d : DEX) (t : Token) :
    (d.isAvailable = true
        ↔ d.isActive = true ∧ d.isHealthy = true ∧ d.status = DEXStatus.active)
      ∧ (t.isAvailable = true
        ↔ t.isActive = true ∧ t.status = TokenStatus.active) := by
  constructor
  · simp only [DEX.isAvailable, Bool.and_eq_true, beq_iff_eq]
    tauto
  · simp only [Token.isAvailable, Bool.and_eq_true, beq_iff_eq]

/-- C9: `setActive(true)` changes only the `isActive` flag and leaves the
status (and health flag) untouched, while `setActive(false)` both clears
the flag and forces status INACTIVE; hence re-activating a deactivated DEX
leaves it unavailable, its status stuck at INACTIVE. -/
theorem c9_setActive_frame (d : DEX) :
    d.setActive true = { d with isActive := true }
      ∧ (d.setActive true).status = d.status
      ∧ (d.setActive true).isHealthy = d.isHealthy
      ∧ d.setActive false
        = { d with isActive := false, status := DEXStatus.inactive }
      ∧ ((d.setActive false).setActive true).isAvailable = false :=
  ⟨rfl, rfl, rfl, rfl, rfl⟩

/-- C10: `getNetProfit` returns 0 when either `actualProfit` or
`actualGasFee` is unset, returns `max 0 (actualProfit - actualGasFee)` when
both are set, and is never negative. -/
theorem c10_getNetProfit (o : ArbitrageOpportunity) :
    (o.actualProfit = none ∨ o.actualGasFee = none → o.getNetProfit = 0)
      ∧ (∀ p g : ℚ, o.actualProfit = some p → o.actualGasFee = some g →
          o.getNetProfit = max 0 (p - g))
      ∧ 0 ≤ o.getNetProfit := by
  refine ⟨?_, ?_, ?_⟩
  · intro h
    rcases hp : o.actualProfit with _ | p <;>
      rcases hg : o.actualGasFee with _ | g <;>
        simp_all [ArbitrageOpportunity.getNetProfit]
  · intro p g hp hg
    simp [ArbitrageOpportunity.getNetProfit, hp, hg]
  · rcases hp : o.actualProfit with _ | p <;>
      rcases hg : o.actualGasFee with _ | g <;>
        simp [ArbitrageOpportunity.getNetProfit, hp, hg, le_max_left]

/-- C10, witness: evaluating `getNetProfit` at concrete opportunities — a
gas-heavy completed one reports `max 0 (3 - 5) = 0`, never a negative
amount, and one lacking a gas fee reports 0. -/
theorem c10_getNetProfit_witness :
    oppGasHeavy.getNetProfit = max 0 ((3 : ℚ) - 5)
      ∧ 0 ≤ oppGasHeavy.getNetProfit
      ∧ oppNoGas.getNetProfit = 0 :=
  ⟨(c10_getNetProfit oppGasHeavy).2.1 3 5 rfl rfl,
   (c10_getNetProfit oppGasHeavy).2.2,
   (c10_getNetProfit oppNoGas).1 (Or.inr rfl)⟩

namespace ArbitrageBot

/-- `transfer` succeeds exactly when the source balance suffices, and then
performs the debit/credit pair. -/
theorem transfer_eq_some {b : Nat → Nat → Nat} {token src dst amt : Nat}
    {b' : Nat → Nat → Nat} :
    transfer b token src dst amt = some b'
      ↔ amt ≤ b token src ∧ b' = transferBal b token src dst amt := by
  unfold transfer
  rcases le_or_lt amt (b token src) with hle | hlt
  · rw [if_pos hle]
    simp only [Option.some.injEq]
    constructor
    · intro hb
      exact ⟨hle, hb.symm⟩
    · rintro ⟨-, hb⟩
      exact hb.symm
  · rw [if_neg (not_le.mpr hlt)]
    constructor
    · intro hb
      exact absurd hb (by simp)
    · rintro ⟨h1, -⟩
      exact absurd h1 (not_le.mpr hlt)

/-- `swapOnDEX` succeeds exactly when the contract can fund the input leg
and the router's settled output reaches `amountOutMin`; it then returns
the quoted output and applies the swap's balance effect. -/
theorem swapOnDEX_eq_some {env : Env} {b : Nat → Nat → Nat}
    {dexRouter tokenIn tokenOut amountIn amountOutMin : Nat}
    {b' : Nat → Nat → Nat} {out : Nat} :
    swapOnDEX env b dexRouter tokenIn tokenOut amountIn amountOutMin
        = some (b', out)
      ↔ amountIn ≤ b tokenIn env.self
        ∧ amountOutMin ≤ env.quote dexRouter tokenIn tokenOut amountIn
        ∧ out = env.quote dexRouter tokenIn tokenOut amountIn
        ∧ b' = swapBal env b dexRouter tokenIn tokenOut amountIn out := by
  rcases le_or_lt amountIn (b tokenIn env.self) with hle | hlt
  · rcases le_or_lt amountOutMin
        (env.quote dexRouter tokenIn tokenOut amountIn) with hq | hq
    · simp only [swapOnDEX, transfer, if_pos hle, if_pos hq,
        Option.some.injEq, Prod.mk.injEq]
      constructor
      · rintro ⟨hb, ho⟩
        subst ho
        exact ⟨hle, hq, rfl, hb.symm⟩
      · rintro ⟨-, -, ho, hb⟩
        subst ho
        exact ⟨hb.symm, rfl⟩
    · simp only [swapOnDEX, transfer, if_pos hle, if_neg (not_le.mpr hq)]
      constructor
      · intro hcontra
        exact absurd hcontra (by simp)
      · rintro ⟨-, h2, -⟩
        exact absurd h2 (not_le.mpr hq)
  · simp only [swapOnDEX, transfer, if_neg (not_le.mpr hlt)]
    constructor
    · intro hcontra
      exact absurd hcontra (by simp)
    · rintro ⟨h1, -⟩
      exact absurd h1 (not_le.mpr hlt)

/-- Master characterization of a successful `executeArbitrage` call: every
guard held, both legs settled (the first nonzero, the second above the
principal), the realized profit `out2 - amountIn` reached
`minProfitExpected`, the fee never exceeded the profit, storage is
untouched, the balances are the two swap effects followed by the fee skim,
and the emitted event carries both venues, the input amount, the net
profit and the gas consumed. -/
theorem executeArbitrage_ok {env : Env} {s : ChainState} {a : Args}
    {s' : ChainState} {ev : ArbitrageExecuted}
    (h : executeArbitrage env s a = .ok (s', ev)) :
    s.storage.paused = false
      ∧ s.storage.authorizedBots env.sender = true
      ∧ a.tokenA ≠ 0
      ∧ s.storage.tokenBlacklist a.tokenA = false
      ∧ a.tokenB ≠ 0
      ∧ s.storage.tokenBlacklist a.tokenB = false
      ∧ env.gasprice ≤ s.storage.maxGasPrice
      ∧ s.storage.minProfitThreshold ≤ a.minProfitExpected
      ∧ a.amountIn ≤ s.bal a.tokenA env.self
      ∧ 0 < env.quote a.dexA a.tokenA a.tokenB a.amountIn
      ∧ a.amountIn < env.quote a.dexB a.tokenB a.tokenA
          (env.quote a.dexA a.tokenA a.tokenB a.amountIn)
      ∧ a.minProfitExpected
          ≤ env.quote a.dexB a.tokenB a.tokenA
              (env.quote a.dexA a.tokenA a.tokenB a.amountIn) - a.amountIn
      ∧ (env.quote a.dexB a.tokenB a.tokenA
              (env.quote a.dexA a.tokenA a.tokenB a.amountIn) - a.amountIn)
            * s.storage.feePercentage / 10000
          ≤ env.quote a.dexB a.tokenB a.tokenA
              (env.quote a.dexA a.tokenA a.tokenB a.amountIn) - a.amountIn
      ∧ s'.storage = s.storage
      ∧ s'.bal = execBal env s a
      ∧ ev = { tokenA := a.tokenA, tokenB := a.tokenB, dexA := a.dexA,
               dexB := a.dexB, amountIn := a.amountIn,
               profit := (env.quote a.dexB a.tokenB a.tokenA
                   (env.quote a.dexA a.tokenA a.tokenB a.amountIn)
                   - a.amountIn)
                 - (env.quote a.dexB a.tokenB a.tokenA
                     (env.quote a.dexA a.tokenA a.tokenB a.amountIn)
                     - a.amountIn) * s.storage.feePercentage / 10000,
               gasUsed := env.gasUsed } := by
  unfold executeArbitrage at h
  by_cases hpause : s.storage.paused = true
  · rw [if_pos hpause] at h
    exact absurd h (by simp)
  rw [if_neg hpause] at h
  by_cases hauth : s.storage.authorizedBots env.sender = false
  · rw [if_pos hauth] at h
    exact absurd h (by simp)
  rw [if_neg hauth] at h
  by_cases htokA : a.tokenA = 0
  · rw [if_pos htokA] at h
    exact absurd h (by simp)
  rw [if_neg htokA] at h
  by_cases hblA : s.storage.tokenBlacklist a.tokenA = true
  · rw [if_pos hblA] at h
    exact absurd h (by simp)
  rw [if_neg hblA] at h
  by_cases htokB : a.tokenB = 0
  · rw [if_pos htokB] at h
    exact absurd h (by simp)
  rw [if_neg htokB] at h
  by_cases hblB : s.storage.tokenBlacklist a.tokenB = true
  · rw [if_pos hblB] at h
    exact absurd h (by simp)
  rw [if_neg hblB] at h
  by_cases hgas : s.storage.maxGasPrice < env.gasprice
  · rw [if_pos hgas] at h
    exact absurd h (by simp)
  rw [if_neg hgas] at h
  by_cases hmin : a.minProfitExpected < s.storage.minProfitThreshold
  · rw [if_pos hmin] at h
    exact absurd h (by simp)
  rw [if_neg hmin] at h
  by_cases hbal : s.bal a.tokenA env.self < a.amountIn
  · rw [if_pos hbal] at h
    exact absurd h (by simp)
  rw [if_neg hbal] at h
  rcases hsw1 : swapOnDEX env s.bal a.dexA a.tokenA a.tokenB a.amountIn 0
    with _ | ⟨b1, out1v⟩
  · simp only [hsw1] at h
    exact absurd h (by simp)
  simp only [hsw1] at h
  by_cases hout1pos : out1v = 0
  · rw [if_pos hout1pos] at h
    exact absurd h (by simp)
  rw [if_neg hout1pos] at h
  rcases hsw2 : swapOnDEX env b1 a.dexB a.tokenB a.tokenA out1v a.amountIn
    with _ | ⟨b2, out2v⟩
  · simp only [hsw2] at h
    exact absurd h (by simp)
  simp only [hsw2] at h
  by_cases hgt : out2v ≤ a.amountIn
  · rw [if_pos hgt] at h
    exact absurd h (by simp)
  rw [if_neg hgt] at h
  by_cases hexp : out2v - a.amountIn < a.minProfitExpected
  · rw [if_pos hexp] at h
    exact absurd h (by simp)
  rw [if_neg hexp] at h
  rcases hfee : (if 0 < (out2v - a.amountIn) * s.storage.feePercentage / 10000
      then transfer b2 a.tokenA env.self s.storage.feeRecipient
        ((out2v - a.amountIn) * s.storage.feePercentage / 10000)
      else some b2) with _ | b3
  · simp only [hfee] at h
    exact absurd h (by simp)
  simp only [hfee] at h
  by_cases huf : out2v - a.amountIn
      < (out2v - a.amountIn) * s.storage.feePercentage / 10000
  · rw [if_pos huf] at h
    exact absurd h (by simp)
  rw [if_neg huf] at h
  rw [Except.ok.injEq, Prod.mk.injEq] at h
  obtain ⟨hstate, hev⟩ := h
  obtain ⟨h1le, -, hout1, hb1⟩ := swapOnDEX_eq_some.mp hsw1
  obtain ⟨h2le, hmin2, hout2, hb2⟩ := swapOnDEX_eq_some.mp hsw2
  subst hout1
  subst hout2
  rw [Bool.not_eq_true] at hpause
  rw [Bool.not_eq_false] at hauth
  rw [Bool.not_eq_true] at hblA hblB
  have hb3 : b3 = execBal env s a := by
    subst hb1
    subst hb2
    split at hfee
    next hfeepos =>
      obtain ⟨-, hb3'⟩ := transfer_eq_some.mp hfee
      rw [hb3']
      simp only [execBal, if_pos hfeepos]
    next hfeezero =>
      rw [Option.some.injEq] at hfee
      rw [← hfee]
      simp only [execBal, if_neg hfeezero]
  refine ⟨hpause, hauth, htokA, hblA, htokB, hblB, by omega, by omega,
    by omega, by omega, by omega, by omega, by omega, ?_, ?_, ?_⟩
  · rw [← hstate]
  · rw [← hstate, hb3]
  · rw [← hev]

/-- C3: `executeArbitrage` rejects — returns a revert, performing no swap —
unless the caller is an authorized executor, the contract is unpaused,
both tokens are nonzero and unblacklisted, the gas price is within the
ceiling, `minProfitExpected` reaches the configured floor, and the
contract holds at least `amountIn` of tokenA.  (In the definition of
`executeArbitrage` all these guards precede the first `swapOnDEX` call.) -/
theorem c3_executeArbitrage_rejects_unless_guards
    (env : Env) (s : ChainState) (a : Args)
    (hn : ¬ (s.storage.authorizedBots env.sender = true
        ∧ s.storage.paused = false
        ∧ a.tokenA ≠ 0
        ∧ s.storage.tokenBlacklist a.tokenA = false
        ∧ a.tokenB ≠ 0
        ∧ s.storage.tokenBlacklist a.tokenB = false
        ∧ env.gasprice ≤ s.storage.maxGasPrice
        ∧ s.storage.minProfitThreshold ≤ a.minProfitExpected
        ∧ a.amountIn ≤ s.bal a.tokenA env.self)) :
    ∃ e, executeArbitrage env s a = .error e := by
  cases hx : executeArbitrage env s a with
  | error e => exact ⟨e, rfl⟩
  | ok r =>
    obtain ⟨s', ev⟩ := r
    obtain ⟨h1, h2, h3, h4, h5, h6, h7, h8, h9, -⟩ := executeArbitrage_ok hx
    exact absurd ⟨h2, h1, h3, h4, h5, h6, h7, h8, h9⟩ hn

/-- C3, witness: with an unauthorized sender (address 9) the call
reverts. -/
theorem c3_witness :
    ∃ e, executeArbitrage wEnvUnauthorized wState wArgs = .error e :=
  c3_executeArbitrage_rejects_unless_guards wEnvUnauthorized wState wArgs
    (by decide)

/-- C2: whenever any of the `require`d conditions of steps 1–5 fails —
authorization, pause, token validity, gas-price ceiling, profit floor,
funding balance, a zero first-leg output, a second leg not exceeding the
principal, or a profit below `minProfitExpected` — the whole call reverts
and the post-transaction chain state (every token balance and all storage)
is exactly the pre-call state. -/
theorem c2_failed_require_reverts_whole_call
    (env : Env) (s : ChainState) (a : Args)
    (hfail : s.storage.authorizedBots env.sender = false
      ∨ s.storage.paused = true
      ∨ a.tokenA = 0
      ∨ s.storage.tokenBlacklist a.tokenA = true
      ∨ a.tokenB = 0
      ∨ s.storage.tokenBlacklist a.tokenB = true
      ∨ s.storage.maxGasPrice < env.gasprice
      ∨ a.minProfitExpected < s.storage.minProfitThreshold
      ∨ s.bal a.tokenA env.self < a.amountIn
      ∨ env.quote a.dexA a.tokenA a.tokenB a.amountIn = 0
      ∨ env.quote a.dexB a.tokenB a.tokenA
          (env.quote a.dexA a.tokenA a.tokenB a.amountIn) ≤ a.amountIn
      ∨ env.quote a.dexB a.tokenB a.tokenA
            (env.quote a.dexA a.tokenA a.tokenB a.amountIn) - a.amountIn
          < a.minProfitExpected) :
    (∃ e, executeArbitrage env s a = .error e) ∧ run env s a = s := by
  cases hx : executeArbitrage env s a with
  | error e =>
    refine ⟨⟨e, rfl⟩, ?_⟩
    unfold run
    rw [hx]
  | ok r =>
    exfalso
    obtain ⟨s', ev⟩ := r
    obtain ⟨h1, h2, h3, h4, h5, h6, h7, h8, h9, h10, h11, h12, -⟩ :=
      executeArbitrage_ok hx
    rcases hfail with hf | hf | hf | hf | hf | hf | hf | hf | hf | hf | hf | hf
    · rw [h2] at hf
      exact absurd hf (by simp)
    · rw [h1] at hf
      exact absurd hf (by simp)
    · exact h3 hf
    · rw [h4] at hf
      exact absurd hf (by simp)
    · exact h5 hf
    · rw [h6] at hf
      exact absurd hf (by simp)
    · omega
    · omega
    · omega
    · omega
    · omega
    · omega

/-- C2, witness: a paused contract rejects the witness call and leaves the
chain state untouched. -/
theorem c2_witness :
    (∃ e, executeArbitrage wEnv wStatePaused wArgs = .error e)
      ∧ run wEnv wStatePaused wArgs = wStatePaused :=
  c2_failed_require_reverts_whole_call wEnv wStatePaused wArgs
    (Or.inr (Or.inl rfl))

/-- C4: on success the profit is the exact difference between the second
leg's settled output and `amountIn` — the emitted net profit plus the fee
reconstructs it — and it reached `minProfitExpected`; a round trip whose
surplus over `amountIn` falls short of `minProfitExpected` reverts. -/
theorem c4_profit_exact_difference (env : Env) (s : ChainState) (a : Args) :
    (∀ (s' : ChainState) (ev : ArbitrageExecuted),
        executeArbitrage env s a = .ok (s', ev) →
          a.amountIn < env.quote a.dexB a.tokenB a.tokenA
              (env.quote a.dexA a.tokenA a.tokenB a.amountIn)
            ∧ a.minProfitExpected
              ≤ env.quote a.dexB a.tokenB a.tokenA
                  (env.quote a.dexA a.tokenA a.tokenB a.amountIn) - a.amountIn
            ∧ ev.profit
                + (env.quote a.dexB a.tokenB a.tokenA
                    (env.quote a.dexA a.tokenA a.tokenB a.amountIn)
                    - a.amountIn) * s.storage.feePercentage / 10000
              = env.quote a.dexB a.tokenB a.tokenA
                  (env.quote a.dexA a.tokenA a.tokenB a.amountIn) - a.amountIn)
      ∧ (env.quote a.dexB a.tokenB a.tokenA
              (env.quote a.dexA a.tokenA a.tokenB a.amountIn) - a.amountIn
            < a.minProfitExpected →
          ∃ e, executeArbitrage env s a = .error e) := by
  constructor
  · intro s' ev hok
    obtain ⟨-, -, -, -, -, -, -, -, -, -, h11, h12, h13, -, -, hev⟩ :=
      executeArbitrage_ok hok
    refine ⟨h11, h12, ?_⟩
    rw [hev]
    simp only []
    omega
  · intro hlow
    cases hx : executeArbitrage env s a with
    | error e => exact ⟨e, rfl⟩
    | ok r =>
      exfalso
      obtain ⟨s', ev⟩ := r
      obtain ⟨-, -, -, -, -, -, -, -, -, -, -, h12, -⟩ :=
        executeArbitrage_ok hx
      omega

/-- C4, witness: the witness call nets 990 after the 10 fee out of the
exact 1000 = 2000 - 1000 profit, and raising the expectation to 2000
makes the same call revert. -/
theorem c4_witness :
    (wArgs.amountIn < 2000
        ∧ wArgs.minProfitExpected ≤ 2000 - wArgs.amountIn
        ∧ wEvent.profit
            + (2000 - wArgs.amountIn) * wState.storage.feePercentage / 10000
          = 2000 - wArgs.amountIn)
      ∧ (∃ e, executeArbitrage wEnv wState wArgsHighMin = .error e) :=
  ⟨(c4_profit_exact_difference wEnv wState wArgs).1 wFinal wEvent rfl,
   (c4_profit_exact_difference wEnv wState wArgsHighMin).2 (by decide)⟩

/-- C5: the router model reverts any swap that settles below its
`amountOutMin`; `executeArbitrage` passes `amountIn` as the second leg's
`amountOutMin`, so a successful call's second leg settles at no less than
the principal, and a second-leg quote below `amountIn` reverts the call. -/
theorem c5_second_leg_recovers_principal
    (env : Env) (s : ChainState) (a : Args) :
    (∀ (b b' : Nat → Nat → Nat) (dexRouter tokenIn tokenOut amtIn
        minOut out : Nat),
        swapOnDEX env b dexRouter tokenIn tokenOut amtIn minOut
            = some (b', out) →
          minOut ≤ out)
      ∧ (∀ (s' : ChainState) (ev : ArbitrageExecuted),
          executeArbitrage env s a = .ok (s', ev) →
            a.amountIn ≤ env.quote a.dexB a.tokenB a.tokenA
              (env.quote a.dexA a.tokenA a.tokenB a.amountIn))
      ∧ (env.quote a.dexB a.tokenB a.tokenA
            (env.quote a.dexA a.tokenA a.tokenB a.amountIn) < a.amountIn →
          ∃ e, executeArbitrage env s a = .error e) := by
  refine ⟨?_, ?_, ?_⟩
  · intro b b' dexRouter tokenIn tokenOut amtIn minOut out hsw
    obtain ⟨-, hmin, hout, -⟩ := swapOnDEX_eq_some.mp hsw
    omega
  · intro s' ev hok
    obtain ⟨-, -, -, -, -, -, -, -, -, -, h11, -⟩ := executeArbitrage_ok hok
    omega
  · intro hlow
    cases hx : executeArbitrage env s a with
    | error e => exact ⟨e, rfl⟩
    | ok r =>
      exfalso
      obtain ⟨s', ev⟩ := r
      obtain ⟨-, -, -, -, -, -, -, -, -, -, h11, -⟩ := executeArbitrage_ok hx
      omega

/-- C5, witness: the witness call's second leg settles at 2000 ≥ the 1000
principal, and a router settling only a quarter of the input makes the
call revert. -/
theorem c5_witness :
    wArgs.amountIn ≤ 2000
      ∧ (∃ e, executeArbitrage wEnvLowQuote wState wArgs = .error e) :=
  ⟨(c5_second_leg_recovers_principal wEnv wState wArgs).2.1 wFinal wEvent rfl,
   (c5_second_leg_recovers_principal wEnvLowQuote wState wArgs).2.2
     (by decide)⟩

/-- C6: on success (with the fee recipient, the two routers and the
contract pairwise-distinct addresses and distinct tokens) the fee
recipient gains exactly `floor(profit * feePercentage / 10000)` of tokenA,
the contract's tokenA balance grows by exactly the remaining
`profit - fee`, and the `ArbitrageExecuted` event reports both venues, the
input amount, the net profit `profit - fee`, and the gas consumed. -/
theorem c6_fee_skim_and_event (env : Env) (s : ChainState) (a : Args)
    (s' : ChainState) (ev : ArbitrageExecuted)
    (hok : executeArbitrage env s a = .ok (s', ev))
    (hfr1 : s.storage.feeRecipient ≠ env.self)
    (hfr2 : s.storage.feeRecipient ≠ a.dexA)
    (hfr3 : s.storage.feeRecipient ≠ a.dexB)
    (hdA : a.dexA ≠ env.self)
    (hdB : a.dexB ≠ env.self)
    (hAB : a.tokenA ≠ a.tokenB) :
    s'.bal a.tokenA s.storage.feeRecipient
        = s.bal a.tokenA s.storage.feeRecipient
          + (env.quote a.dexB a.tokenB a.tokenA
              (env.quote a.dexA a.tokenA a.tokenB a.amountIn) - a.amountIn)
            * s.storage.feePercentage / 10000
      ∧ s'.bal a.tokenA env.self
        = s.bal a.tokenA env.self
          + ((env.quote a.dexB a.tokenB a.tokenA
                (env.quote a.dexA a.tokenA a.tokenB a.amountIn) - a.amountIn)
            - (env.quote a.dexB a.tokenB a.tokenA
                (env.quote a.dexA a.tokenA a.tokenB a.amountIn) - a.amountIn)
              * s.storage.feePercentage / 10000)
      ∧ ev = { tokenA := a.tokenA, tokenB := a.tokenB, dexA := a.dexA,
               dexB := a.dexB, amountIn := a.amountIn,
               profit := (env.quote a.dexB a.tokenB a.tokenA
                   (env.quote a.dexA a.tokenA a.tokenB a.amountIn)
                   - a.amountIn)
                 - (env.quote a.dexB a.tokenB a.tokenA
                     (env.quote a.dexA a.tokenA a.tokenB a.amountIn)
                     - a.amountIn) * s.storage.feePercentage / 10000,
               gasUsed := env.gasUsed } := by
  obtain ⟨-, -, -, -, -, -, -, -, h9, -, h11, -, h13, -, hsbal, hev⟩ :=
    executeArbitrage_ok hok
  refine ⟨?_, ?_, hev⟩
  · rw [hsbal]
    by_cases hfp : 0 < (env.quote a.dexB a.tokenB a.tokenA
        (env.quote a.dexA a.tokenA a.tokenB a.amountIn) - a.amountIn)
          * s.storage.feePercentage / 10000
    · simp only [execBal, if_pos hfp, transferBal, swapBal, setBal]
      simp [hfr1, hfr2, hfr3, hdA, hdB, hAB, Ne.symm hfr1, Ne.symm hfr2,
        Ne.symm hfr3, Ne.symm hdA, Ne.symm hdB, Ne.symm hAB]
    · simp only [execBal, if_neg hfp, transferBal, swapBal, setBal]
      simp [hfr1, hfr2, hfr3, hdA, hdB, hAB, Ne.symm hfr1, Ne.symm hfr2,
        Ne.symm hfr3, Ne.symm hdA, Ne.symm hdB, Ne.symm hAB]
      omega
  · rw [hsbal]
    by_cases hfp : 0 < (env.quote a.dexB a.tokenB a.tokenA
        (env.quote a.dexA a.tokenA a.tokenB a.amountIn) - a.amountIn)
          * s.storage.feePercentage / 10000
    · simp only [execBal, if_pos hfp, transferBal, swapBal, setBal]
      simp [hfr1, hfr2, hfr3, hdA, hdB, hAB, Ne.symm hfr1, Ne.symm hfr2,
        Ne.symm hfr3, Ne.symm hdA, Ne.symm hdB, Ne.symm hAB]
      omega
    · simp only [execBal, if_neg hfp, transferBal, swapBal, setBal]
      simp [hfr1, hfr2, hfr3, hdA, hdB, hAB, Ne.symm hfr1, Ne.symm hfr2,
        Ne.symm hfr3, Ne.symm hdA, Ne.symm hdB, Ne.symm hAB]
      omega

/-- C6, witness: the witness call skims the 1% fee of 10 to recipient 3,
keeps the remaining 990 profit with the contract, and emits
`ArbitrageExecuted(10, 11, 20, 21, 1000, 990, 777)`. -/
theorem c6_witness :
    wFinal.bal 10 3 = wState.bal 10 3 + 10
      ∧ wFinal.bal 10 1 = wState.bal 10 1 + 990
      ∧ wEvent = { tokenA := 10, tokenB := 11, dexA := 20, dexB := 21,
                   amountIn := 1000, profit := 990, gasUsed := 777 } :=
  c6_fee_skim_and_event wEnv wState wArgs wFinal wEvent rfl (by decide)
    (by decide) (by decide) (by decide) (by decide) (by decide)

/-- C7: `simulateArbitrage` — a `view` dry run taking the chain state as a
read-only input — returns `(0, false)` when the first leg quotes zero or
the round-trip quote does not exceed `amountIn`; otherwise it returns the
surplus `tokenAOut - amountIn` with `profitable` true exactly when that
surplus reaches `minProfitThreshold`. -/
theorem c7_simulateArbitrage_dry_run (env : Env) (s : ChainState)
    (tokenA tokenB dexA dexB amountIn : Nat) :
    (env.quote dexA tokenA tokenB amountIn = 0 →
        simulateArbitrage env s tokenA tokenB dexA dexB amountIn = (0, false))
      ∧ (env.quote dexB tokenB tokenA
            (env.quote dexA tokenA tokenB amountIn) ≤ amountIn →
          simulateArbitrage env s tokenA tokenB dexA dexB amountIn
            = (0, false))
      ∧ (env.quote dexA tokenA tokenB amountIn ≠ 0 →
          amountIn < env.quote dexB tokenB tokenA
              (env.quote dexA tokenA tokenB amountIn) →
          (simulateArbitrage env s tokenA tokenB dexA dexB amountIn).1
              = env.quote dexB tokenB tokenA
                  (env.quote dexA tokenA tokenB amountIn) - amountIn
            ∧ ((simulateArbitrage env s tokenA tokenB dexA dexB amountIn).2
                  = true
                ↔ s.storage.minProfitThreshold
                  ≤ env.quote dexB tokenB tokenA
                      (env.quote dexA tokenA tokenB amountIn) - amountIn)) := by
  refine ⟨?_, ?_, ?_⟩
  · intro h0
    simp [simulateArbitrage, h0]
  · intro hle
    unfold simulateArbitrage
    by_cases h0 : env.quote dexA tokenA tokenB amountIn = 0
    · rw [if_pos h0]
    · rw [if_neg h0, if_pos hle]
  · intro h0 hgt
    unfold simulateArbitrage
    rw [if_neg h0, if_neg (not_le.mpr hgt)]
    exact ⟨rfl, decide_eq_true_iff⟩

/-- C7, witness: the witness quotes give a 2000 round trip on 1000 in, so
the dry run reports the surplus 1000 and profitability against the
threshold 5. -/
theorem c7_witness :
    (simulateArbitrage wEnv wState 10 11 20 21 1000).1 = 2000 - 1000
      ∧ ((simulateArbitrage wEnv wState 10 11 20 21 1000).2 = true
          ↔ wState.storage.minProfitThreshold ≤ 2000 - 1000) :=
  (c7_simulateArbitrage_dry_run wEnv wState 10 11 20 21 1000).2.2
    (by decide) (by decide)

end ArbitrageBot
